import Mathlib

/-!
Verification of the BlueGuard coastal-hazard aggregation core.

The definitions below are a shallow embedding of the pure aggregation and
classification functions of `Backend/ml_service/ai_service.py` and
`Backend/ml_service/ai_service_simple.py`.  Python dictionaries holding
per-category prediction results are embedded as structures of optional
fields (an `Option` field is `some` exactly when the corresponding key is
present in the dictionary); the `threats` mapping is embedded as an
association list in insertion order, which is how Python dictionaries
iterate.  Python floats are embedded as rationals: every numeric value the
aggregation code manipulates (risk ranks 1..4, means of at most a handful
of ranks, fixed decimal constants) is exactly representable, so rational
arithmetic coincides with the float arithmetic of the source on all
realistic inputs.  Functions that can raise a Python exception are embedded
with an `Except String` result.
-/

namespace BlueGuard

/-- A Python value as it may appear under the `carbon_storage` key of an
ecosystem-data dictionary: either a number or a non-numeric value (embedded
here by its representative case, a string). -/
inductive PyVal where
  | num (q : ℚ)
  | str (s : String)
deriving Repr, DecidableEq

/-- Result dictionary of `_estimate_carbon_loss` (identical in
`ai_service.py` lines 274-292 and `ai_service_simple.py` lines 313-331). -/
structure CarbonLossEstimate where
  potential_loss_tons_co2 : ℚ
  economic_value_usd : ℚ
  recovery_time_years : ℚ
deriving Repr, DecidableEq

/-- A per-category prediction-result dictionary.  Only the keys inspected by
the aggregation core are carried; `confidence` and `carbon_loss_estimate`
are produced by the predictors but never read by the aggregator or the
recommendation generator.  A field is `none` exactly when the key is absent
from the Python dictionary. -/
structure PredictionResult where
  error : Option String := none
  surge_height : Option ℚ := none
  confidence : Option ℚ := none
  risk_level : Option String := none
  threat_level : Option String := none
  carbon_loss_estimate : Option CarbonLossEstimate := none
deriving Repr, DecidableEq

/-- The ecosystem-data section, restricted to the only key that
`_estimate_carbon_loss` reads (`carbon_storage`); the remaining keys feed
the external ML model only. -/
structure EcosystemData where
  carbon_storage : Option PyVal := none
deriving Repr, DecidableEq

/-- Return dictionary of `predict_weather_sequence`: either
`{"error": ...}` or `{"predictions": ..., "confidence": ...}`.  In neither
shape does it carry `surge_height`, `risk_level` or `threat_level`; the
`predictions` list is never read by the aggregation core and is omitted. -/
structure WeatherForecastResult where
  error : Option String := none
  confidence : Option ℚ := none
deriving Repr, DecidableEq

/-- Embedding of `_categorize_surge_risk` (`ai_service.py` lines 263-272,
identical in `ai_service_simple.py` lines 302-311). -/
def categorize_surge_risk (surge_height : ℚ) : String :=
  if surge_height < 1/2 then "low"
  else if surge_height < 1 then "medium"
  else if surge_height < 2 then "high"
  else "critical"

/-- The `loss_multipliers` dictionary lookup `loss_multipliers.get(threat_level, 0.25)`
of `_estimate_carbon_loss`: {minimal: 0.05, moderate: 0.15, significant: 0.35,
severe: 0.60}, default 0.25. -/
def loss_multipliers (threat_level : String) : ℚ :=
  if threat_level = "minimal" then 5/100
  else if threat_level = "moderate" then 15/100
  else if threat_level = "significant" then 35/100
  else if threat_level = "severe" then 60/100
  else 25/100

/-- Embedding of `_estimate_carbon_loss` (`ai_service.py` lines 274-292,
identical in `ai_service_simple.py` lines 313-331).
The lookup `ecosystem_data.get(carbon_storage, 100)` yields the stored value when the
key is present (whatever its type) and `100` only when the key is absent;
the subsequent multiplication `base_carbon * loss_rate` raises a Python
`TypeError` when the stored value is non-numeric, embedded here as
`Except.error`. -/
def estimate_carbon_loss (threat_level : String) (ecosystem_data : EcosystemData) :
    Except String CarbonLossEstimate :=
  let base_carbon := ecosystem_data.carbon_storage.getD (PyVal.num 100)
  let loss_rate := loss_multipliers threat_level
  match base_carbon with
  | PyVal.num q =>
      let carbon_loss := q * loss_rate
      Except.ok
        { potential_loss_tons_co2 := carbon_loss
          economic_value_usd := carbon_loss * 50
          recovery_time_years := carbon_loss / 10 }
  | PyVal.str _ =>
      Except.error "TypeError: cannot multiply sequence by non-int of type float"

/-- The `risk_scores` dictionary lookup `risk_scores.get(label, 2)` of
`_calculate_overall_risk`: {low: 1, minimal: 1, medium: 2, moderate: 2,
high: 3, significant: 3, critical: 4, severe: 4}, default 2. -/
def risk_scores (label : String) : ℕ :=
  if label = "low" ∨ label = "minimal" then 1
  else if label = "medium" ∨ label = "moderate" then 2
  else if label = "high" ∨ label = "significant" then 3
  else if label = "critical" ∨ label = "severe" then 4
  else 2

/-- The per-entry body of the scores loop of `_calculate_overall_risk`:
skip entries carrying an `error` key, otherwise read `risk_level` when
present, else `threat_level` when present, else contribute nothing. -/
def extract_score (threat_data : PredictionResult) : Option ℕ :=
  if threat_data.error.isSome then none
  else
    match threat_data.risk_level with
    | some label => some (risk_scores label)
    | none =>
        match threat_data.threat_level with
        | some label => some (risk_scores label)
        | none => none

/-- The final classification of `_calculate_overall_risk`: mean rank below
1.5 is low, below 2.5 medium, below 3.5 high, otherwise critical. -/
def classify_average (avg_score : ℚ) : String :=
  if avg_score < 3/2 then "low"
  else if avg_score < 5/2 then "medium"
  else if avg_score < 7/2 then "high"
  else "critical"

/-- Embedding of `_calculate_overall_risk` (`ai_service.py` lines 294-322,
identical in `ai_service_simple.py` lines 333-361): collect one rank per
usable entry, return "unknown" when none, otherwise classify the mean. -/
def calculate_overall_risk (threats : List (String × PredictionResult)) : String :=
  let scores := threats.filterMap fun p => extract_score p.2
  if scores.isEmpty then "unknown"
  else classify_average ((scores.map fun s : ℕ => (s : ℚ)).sum / scores.length)

/-- The per-entry body of the loop of `_generate_recommendations` in
`ai_service.py` (lines 324-350): the list of strings appended for one
`(threat_type, threat_data)` entry. -/
def recs_for (p : String × PredictionResult) : List String :=
  if p.2.error.isSome then []
  else if p.1 = "storm_surge" then
    let surge_height := p.2.surge_height.getD 0
    if surge_height > 1 then
      ["Issue storm surge warning - evacuate low-lying areas",
       "Deploy emergency response teams"]
    else if surge_height > 1/2 then
      ["Monitor coastal conditions closely"]
    else []
  else if p.1 = "coastal_erosion" then
    let risk_level := p.2.risk_level.getD "low"
    if risk_level = "high" ∨ risk_level = "critical" then
      ["Implement emergency coastal protection measures",
       "Restrict beach access in high-risk areas"]
    else []
  else if p.1 = "blue_carbon" then
    let threat_level := p.2.threat_level.getD "minimal"
    if threat_level = "significant" ∨ threat_level = "severe" then
      ["Activate blue carbon ecosystem protection protocols",
       "Deploy rapid response conservation team"]
    else []
  else []

/-- Embedding of `_generate_recommendations` of `ai_service.py`
(lines 324-350): the loop appends the per-entry strings in the iteration
(insertion) order of the mapping. -/
def generate_recommendations (threats : List (String × PredictionResult)) : List String :=
  threats.foldl (fun recommendations p => recommendations ++ recs_for p) []

/-- The per-entry body of the loop of `_generate_recommendations` in
`ai_service_simple.py` (lines 363-389): same conditions as the full
variant, a single string per firing rule. -/
def recs_for_simple (p : String × PredictionResult) : List String :=
  if p.2.error.isSome then []
  else if p.1 = "storm_surge" then
    let surge_height := p.2.surge_height.getD 0
    if surge_height > 1 then
      ["Issue storm surge warning - evacuate low-lying areas"]
    else if surge_height > 1/2 then
      ["Monitor coastal conditions closely"]
    else []
  else if p.1 = "coastal_erosion" then
    let risk_level := p.2.risk_level.getD "low"
    if risk_level = "high" ∨ risk_level = "critical" then
      ["Implement emergency coastal protection measures"]
    else []
  else if p.1 = "blue_carbon" then
    let threat_level := p.2.threat_level.getD "minimal"
    if threat_level = "significant" ∨ threat_level = "severe" then
      ["Activate blue carbon ecosystem protection protocols"]
    else []
  else []

/-- Embedding of `_generate_recommendations` of `ai_service_simple.py`
(lines 363-389): as the full variant, but with the fallback string appended
when the loop produced nothing. -/
def generate_recommendations_simple (threats : List (String × PredictionResult)) : List String :=
  let recommendations := threats.foldl (fun recommendations p => recommendations ++ recs_for_simple p) []
  if recommendations.isEmpty then ["Continue routine monitoring"] else recommendations

/-- The result object assembled by `comprehensive_threat_analysis`
(timestamp omitted: it is an uninspected wall-clock string). -/
structure ThreatAnalysis where
  overall_risk : String
  confidence : ℚ
  threats : List (String × PredictionResult)
  recommendations : List String
  error : Option String := none
deriving Repr, DecidableEq

/-- How a `predict_weather_sequence` return dictionary reads as a generic
per-category result: it never carries `surge_height`, `risk_level` or
`threat_level`. -/
def WeatherForecastResult.toPredictionResult (w : WeatherForecastResult) : PredictionResult :=
  { error := w.error, confidence := w.confidence }

/-- Embedding of `comprehensive_threat_analysis` (`ai_service.py` lines
219-256, identical dispatch in `ai_service_simple.py` lines 258-295).  The
four per-category predictors are external collaborators and appear as
function parameters over an abstract section-data type `α`; a section
absent from the input contributes no entry to the `threats` mapping.  The
predictors themselves never raise (each catches its own exceptions and
returns an `error`-keyed dictionary), and the remainder of the orchestrator
body is the pure aggregation code, so the orchestrator-level `except`
branch is unreachable and the top-level `error` key stays absent. -/
def comprehensive_threat_analysis {α : Type}
    (predict_storm_surge predict_coastal_erosion predict_blue_carbon_threat : α → PredictionResult)
    (predict_weather_sequence : α → WeatherForecastResult)
    (weather coastal ecosystem historical_weather : Option α) : ThreatAnalysis :=
  let threats :=
    (match weather with
      | some d => [("storm_surge", predict_storm_surge d)]
      | none => []) ++
    (match coastal with
      | some d => [("coastal_erosion", predict_coastal_erosion d)]
      | none => []) ++
    (match ecosystem with
      | some d => [("blue_carbon", predict_blue_carbon_threat d)]
      | none => []) ++
    (match historical_weather with
      | some d => [("weather_forecast", (predict_weather_sequence d).toPredictionResult)]
      | none => [])
  { overall_risk := calculate_overall_risk threats
    confidence := 4/5
    threats := threats
    recommendations := generate_recommendations threats
    error := none }

/-- The four output labels of `_calculate_overall_risk` in their ordinal
order low < medium < high < critical (rank 0 for any other string). -/
def overall_label_rank (label : String) : ℕ :=
  if label = "low" then 1
  else if label = "medium" then 2
  else if label = "high" then 3
  else if label = "critical" then 4
  else 0

/-- The eight labels the shared rank table of `_calculate_overall_risk`
recognizes. -/
def recognized_label (label : String) : Bool :=
  label = "low" || label = "minimal" || label = "medium" || label = "moderate" ||
  label = "high" || label = "significant" || label = "critical" || label = "severe"

/-- Helper: the imperative append-to-accumulator loop of the recommendation
generators is a `flatMap` over the entries in iteration order. -/
theorem foldl_append_eq_flatMap {α : Type} (g : α → List String) (l : List α)
    (acc : List String) :
    l.foldl (fun recommendations p => recommendations ++ g p) acc = acc ++ l.flatMap g := by
  induction l generalizing acc with
  | nil => simp
  | cons x xs ih => simp [ih, List.append_assoc]

/-- Claim C2: `_categorize_surge_risk` is a total pure function returning
exactly one of four labels by half-open thresholds: "low" for x < 0.5
(including every negative x), "medium" for 0.5 <= x < 1.0, "high" for
1.0 <= x < 2.0, "critical" for x >= 2.0; it has no failure mode. -/
theorem categorize_surge_risk_total_thresholds :
    ∀ x : ℚ,
      (categorize_surge_risk x = "low" ↔ x < 1/2) ∧
      (categorize_surge_risk x = "medium" ↔ 1/2 ≤ x ∧ x < 1) ∧
      (categorize_surge_risk x = "high" ↔ 1 ≤ x ∧ x < 2) ∧
      (categorize_surge_risk x = "critical" ↔ 2 ≤ x) ∧
      categorize_surge_risk (1/2) = "medium" ∧
      categorize_surge_risk 1 = "high" ∧
      categorize_surge_risk (5/2) = "critical" ∧
      categorize_surge_risk (-3) = "low" := by
  intro x
  refine ⟨?_, ?_, ?_, ?_, by norm_num [categorize_surge_risk],
    by norm_num [categorize_surge_risk], by norm_num [categorize_surge_risk],
    by norm_num [categorize_surge_risk]⟩ <;>
  · unfold categorize_surge_risk
    split_ifs <;> simp_all <;>
      first
        | linarith
        | (constructor <;> linarith)
        | (intro hh; linarith)

/-- Claim C4: `_estimate_carbon_loss` returns exactly
potential_loss_tons_co2 = carbon_storage * rate(t) with rate from
{minimal: 0.05, moderate: 0.15, significant: 0.35, severe: 0.60} and 0.25
for any other label, economic_value_usd = potential_loss * 50 and
recovery_time_years = potential_loss / 10, with carbon_storage defaulting
to 100 when the key is absent; severe at 100 gives (60, 3000, 6) and an
unrecognized label at 100 gives potential loss 25. -/
theorem estimate_carbon_loss_formula :
    (∀ (t : String) (c : Option ℚ),
      estimate_carbon_loss t { carbon_storage := c.map PyVal.num } =
        let rate : ℚ :=
          if t = "minimal" then 5/100
          else if t = "moderate" then 15/100
          else if t = "significant" then 35/100
          else if t = "severe" then 60/100
          else 25/100
        Except.ok
          { potential_loss_tons_co2 := (c.getD 100) * rate
            economic_value_usd := (c.getD 100) * rate * 50
            recovery_time_years := (c.getD 100) * rate / 10 }) ∧
    estimate_carbon_loss "severe" { carbon_storage := some (PyVal.num 100) } =
      Except.ok
        { potential_loss_tons_co2 := 60
          economic_value_usd := 3000
          recovery_time_years := 6 } ∧
    (estimate_carbon_loss "unrecognized" { carbon_storage := some (PyVal.num 100) }).map
        CarbonLossEstimate.potential_loss_tons_co2 = Except.ok 25 := by
  refine ⟨?_, by simp [estimate_carbon_loss, loss_multipliers] <;> norm_num,
    by simp [estimate_carbon_loss, loss_multipliers, Except.map] <;> norm_num⟩
  intro t c
  cases c <;> simp [estimate_carbon_loss, loss_multipliers]

/-- Claim C9 (counterexample): `_estimate_carbon_loss` does fail on an
ecosystem input whose `carbon_storage` key holds a non-numeric value —
`dict.get` only substitutes the default 100 when the key is absent, and the
multiplication of the present non-numeric value then raises a TypeError. -/
theorem estimate_carbon_loss_nonnumeric_raises :
    estimate_carbon_loss "severe" { carbon_storage := some (PyVal.str "high") } =
      Except.error "TypeError: cannot multiply sequence by non-int of type float" := rfl

/-- Claim C9 (amended): `_estimate_carbon_loss` never fails when the
`carbon_storage` entry is absent or numeric, and an absent entry behaves
exactly as the default base value 100. -/
theorem estimate_carbon_loss_total_on_numeric :
    ∀ (t : String) (c : Option ℚ),
      (estimate_carbon_loss t { carbon_storage := c.map PyVal.num }).isOk = true ∧
      estimate_carbon_loss t { carbon_storage := none } =
        estimate_carbon_loss t { carbon_storage := some (PyVal.num 100) } := by
  intro t c
  refine ⟨?_, by simp [estimate_carbon_loss]⟩
  cases c <;> simp [estimate_carbon_loss, Except.isOk, Except.toBool]

/-- Three error-free results labelled high, high and low (ranks 3, 3, 1). -/
def high_high_low_threats : List (String × PredictionResult) :=
  [("storm_surge", { risk_level := some "high" }),
   ("coastal_erosion", { risk_level := some "high" }),
   ("blue_carbon", { risk_level := some "low" })]

/-- Claim C3 (counterexample): on three error-free results labelled high,
high and low, `_calculate_overall_risk` does not return "high" — the mean
rank 7/3 is below the 2.5 threshold. -/
theorem overall_risk_high_high_low_not_high :
    calculate_overall_risk high_high_low_threats ≠ "high" := by
  have h : calculate_overall_risk high_high_low_threats = "medium" := by
    simp [calculate_overall_risk, high_high_low_threats, extract_score,
      risk_scores, classify_average] <;> norm_num
  simp [h]

/-- Claim C3 (amended): on three error-free results labelled high, high and
low (ranks 3, 3, 1; mean 7/3), `_calculate_overall_risk` returns
"medium". -/
theorem overall_risk_high_high_low_eq_medium :
    calculate_overall_risk high_high_low_threats = "medium" := by
  simp [calculate_overall_risk, high_high_low_threats, extract_score,
    risk_scores, classify_average] <;> norm_num

/-- Claim C1: `_calculate_overall_risk` collects one integer rank per
error-free result — the `risk_level` field if present, else `threat_level`,
via the rank table low/minimal 1, medium/moderate 2, high/significant 3,
critical/severe 4, default 2 for unrecognized labels — returns "unknown"
when no rank is collected, and otherwise classifies the arithmetic mean of
the ranks: below 1.5 low, below 2.5 medium, below 3.5 high, else critical;
in particular two results at high and one at low (mean 7/3) yield
"medium". -/
theorem calculate_overall_risk_spec :
    (∀ threats : List (String × PredictionResult),
      calculate_overall_risk threats =
        let ranks : List ℕ := threats.filterMap fun p =>
          if p.2.error = none then
            (p.2.risk_level.or p.2.threat_level).map fun label =>
              if label = "low" ∨ label = "minimal" then 1
              else if label = "medium" ∨ label = "moderate" then 2
              else if label = "high" ∨ label = "significant" then 3
              else if label = "critical" ∨ label = "severe" then 4
              else 2
          else none
        if ranks = [] then "unknown"
        else
          let mean : ℚ := (ranks.map fun r : ℕ => (r : ℚ)).sum / ranks.length
          if mean < 3/2 then "low"
          else if mean < 5/2 then "medium"
          else if mean < 7/2 then "high"
          else "critical") ∧
    calculate_overall_risk
        [("a", { risk_level := some "high" }), ("b", { risk_level := some "high" }),
         ("c", { risk_level := some "low" })] = "medium" := by
  constructor
  · intro threats
    have hfun : (fun p : String × PredictionResult => extract_score p.2) =
        fun p : String × PredictionResult =>
          if p.2.error = none then
            (p.2.risk_level.or p.2.threat_level).map fun label =>
              if label = "low" ∨ label = "minimal" then 1
              else if label = "medium" ∨ label = "moderate" then 2
              else if label = "high" ∨ label = "significant" then 3
              else if label = "critical" ∨ label = "severe" then 4
              else 2
          else none := by
      funext p
      unfold extract_score
      cases p.2.error <;> cases hr : p.2.risk_level <;> cases ht : p.2.threat_level <;>
        simp [hr, ht, Option.or, risk_scores]
    simp only [calculate_overall_risk, hfun]
    cases hs : threats.filterMap fun p =>
        if p.2.error = none then
          (p.2.risk_level.or p.2.threat_level).map fun label =>
            if label = "low" ∨ label = "minimal" then 1
            else if label = "medium" ∨ label = "moderate" then 2
            else if label = "high" ∨ label = "significant" then 3
            else if label = "critical" ∨ label = "severe" then 4
            else 2
        else none with
    | nil => simp [hs]
    | cons a as => simp [hs, classify_average]
  · simp [calculate_overall_risk, extract_score, risk_scores, classify_average] <;> norm_num

/-- Claim C5: `_generate_recommendations` visits categories in insertion
order and, per error-free entry, appends the storm-surge
evacuation/warning recommendations exactly when surge_height > 1.0, the
monitoring recommendation exactly when 0.5 < surge_height <= 1.0, the
coastal-protection recommendations exactly when risk_level is high or
critical, and the blue-carbon protection recommendations exactly when
threat_level is significant or severe; storm_surge at 1.5 inserted before
coastal_erosion at "critical" yields the storm-surge recommendations
first (in both variants). -/
theorem generate_recommendations_rules :
    (∀ threats : List (String × PredictionResult),
      generate_recommendations threats =
        threats.flatMap fun p =>
          if p.2.error = none then
            (if p.1 = "storm_surge" ∧ p.2.surge_height.getD 0 > 1 then
              ["Issue storm surge warning - evacuate low-lying areas",
               "Deploy emergency response teams"]
            else []) ++
            (if p.1 = "storm_surge" ∧ 1/2 < p.2.surge_height.getD 0 ∧
                p.2.surge_height.getD 0 ≤ 1 then
              ["Monitor coastal conditions closely"]
            else []) ++
            (if p.1 = "coastal_erosion" ∧
                (p.2.risk_level.getD "low" = "high" ∨ p.2.risk_level.getD "low" = "critical") then
              ["Implement emergency coastal protection measures",
               "Restrict beach access in high-risk areas"]
            else []) ++
            (if p.1 = "blue_carbon" ∧
                (p.2.threat_level.getD "minimal" = "significant" ∨
                  p.2.threat_level.getD "minimal" = "severe") then
              ["Activate blue carbon ecosystem protection protocols",
               "Deploy rapid response conservation team"]
            else [])
          else []) ∧
    generate_recommendations
        [("storm_surge", { surge_height := some (3/2) }),
         ("coastal_erosion", { risk_level := some "critical" })] =
      ["Issue storm surge warning - evacuate low-lying areas",
       "Deploy emergency response teams",
       "Implement emergency coastal protection measures",
       "Restrict beach access in high-risk areas"] ∧
    generate_recommendations_simple
        [("storm_surge", { surge_height := some (3/2) }),
         ("coastal_erosion", { risk_level := some "critical" })] =
      ["Issue storm surge warning - evacuate low-lying areas",
       "Implement emergency coastal protection measures"] := by
  refine ⟨?_, ?_, ?_⟩
  · intro threats
    simp only [generate_recommendations]
    rw [foldl_append_eq_flatMap]
    simp only [List.nil_append]
    congr 1
    funext p
    cases herr : p.2.error with
    | some e => simp [recs_for, herr]
    | none =>
      by_cases h1 : p.1 = "storm_surge"
      · by_cases h2 : 1 < p.2.surge_height.getD 0
        · have hno : ¬(1/2 < p.2.surge_height.getD 0 ∧ p.2.surge_height.getD 0 ≤ 1) := by
            rintro ⟨hh1, hh2⟩; linarith
          simp [-one_div, recs_for, herr, h1, h2, hno]
        · by_cases h3 : 1/2 < p.2.surge_height.getD 0
          · simp [-one_div, recs_for, herr, h1, h2, h3, le_of_not_lt h2]
          · simp [-one_div, recs_for, herr, h1, h2, h3]
      · by_cases h4 : p.1 = "coastal_erosion"
        · by_cases h5 : p.2.risk_level.getD "low" = "high" ∨ p.2.risk_level.getD "low" = "critical"
          · simp [recs_for, herr, h1, h4, h5]
          · simp [recs_for, herr, h1, h4, h5]
        · by_cases h6 : p.1 = "blue_carbon"
          · by_cases h7 : p.2.threat_level.getD "minimal" = "significant" ∨
                p.2.threat_level.getD "minimal" = "severe"
            · simp [recs_for, herr, h1, h4, h6, h7]
            · simp [recs_for, herr, h1, h4, h6, h7]
          · simp [recs_for, herr, h1, h4, h6]
  · simp [generate_recommendations, recs_for, show (1 : ℚ) < 3/2 from by norm_num]
  · simp [generate_recommendations_simple, recs_for_simple,
      show (1 : ℚ) < 3/2 from by norm_num]

/-- Helper: entries carrying an `error` key contribute no rank, so the
rank collection of `_calculate_overall_risk` is unchanged by dropping
them. -/
theorem filterMap_scores_filter_errorfree (l : List (String × PredictionResult)) :
    ((l.filter fun p => p.2.error.isNone).filterMap fun p => extract_score p.2) =
      l.filterMap fun p => extract_score p.2 := by
  induction l with
  | nil => rfl
  | cons p ps ih =>
    cases herr : p.2.error with
    | none => simp [List.filter_cons, herr, List.filterMap_cons, ih]
    | some e =>
      have hnone : extract_score p.2 = none := by simp [extract_score, herr]
      simp [List.filter_cons, herr, List.filterMap_cons, ih, hnone]

/-- Helper: entries carrying an `error` key contribute no recommendation
strings in either generator variant. -/
theorem flatMap_recs_filter_errorfree (g : String × PredictionResult → List String)
    (hg : ∀ p : String × PredictionResult, p.2.error.isSome → g p = [])
    (l : List (String × PredictionResult)) :
    ((l.filter fun p => p.2.error.isNone).flatMap g) = l.flatMap g := by
  induction l with
  | nil => rfl
  | cons p ps ih =>
    cases herr : p.2.error with
    | none => simp [List.filter_cons, herr, ih]
    | some e =>
      have := hg p (by simp [herr])
      simp [List.filter_cons, herr, ih, this]

/-- Claim C6: results carrying an `error` key are ignored by the aggregator
and by both generator variants — outputs over a threats mapping equal the
outputs over the mapping with error-carrying entries removed; and an
orchestration with only the ecosystem section present whose blue-carbon
prediction failed yields threats.blue_carbon with its error set,
overall_risk "unknown" and no top-level error. -/
theorem error_entries_ignored :
    (∀ threats : List (String × PredictionResult),
      calculate_overall_risk threats =
        calculate_overall_risk (threats.filter fun p => p.2.error.isNone) ∧
      generate_recommendations threats =
        generate_recommendations (threats.filter fun p => p.2.error.isNone) ∧
      generate_recommendations_simple threats =
        generate_recommendations_simple (threats.filter fun p => p.2.error.isNone)) ∧
    (∀ (α : Type) (pS pC : α → PredictionResult) (pW : α → WeatherForecastResult)
        (d : α) (msg : String),
      (comprehensive_threat_analysis pS pC
          (fun _ => { error := some msg, threat_level := some "unknown" }) pW
          none none (some d) none).threats =
        [("blue_carbon", { error := some msg, threat_level := some "unknown" })] ∧
      (comprehensive_threat_analysis pS pC
          (fun _ => { error := some msg, threat_level := some "unknown" }) pW
          none none (some d) none).overall_risk = "unknown" ∧
      (comprehensive_threat_analysis pS pC
          (fun _ => { error := some msg, threat_level := some "unknown" }) pW
          none none (some d) none).error = none) := by
  constructor
  · intro threats
    have hrecs : ∀ p : String × PredictionResult, p.2.error.isSome → recs_for p = [] := by
      intro p hp
      simp [recs_for, hp]
    have hrecss : ∀ p : String × PredictionResult, p.2.error.isSome → recs_for_simple p = [] := by
      intro p hp
      simp [recs_for_simple, hp]
    refine ⟨?_, ?_, ?_⟩
    · simp only [calculate_overall_risk, filterMap_scores_filter_errorfree]
    · simp only [generate_recommendations]
      rw [foldl_append_eq_flatMap, foldl_append_eq_flatMap,
        flatMap_recs_filter_errorfree recs_for hrecs]
    · simp only [generate_recommendations_simple]
      rw [foldl_append_eq_flatMap, foldl_append_eq_flatMap,
        flatMap_recs_filter_errorfree recs_for_simple hrecss]
  · intro α pS pC pW d msg
    refine ⟨rfl, ?_, rfl⟩
    simp [comprehensive_threat_analysis, calculate_overall_risk, extract_score]

/-- Claim C7: presence or absence of the `historical_weather` section
changes only the `weather_forecast` entry of the threats mapping — a
weather-forecast result carries neither `risk_level` nor `threat_level`
and matches no recommendation rule, so `overall_risk` and
`recommendations` are identical with and without it. -/
theorem weather_forecast_frame :
    ∀ (α : Type) (pS pC pB : α → PredictionResult) (pW : α → WeatherForecastResult)
      (w c e : Option α) (h : α),
      (comprehensive_threat_analysis pS pC pB pW w c e (some h)).overall_risk =
        (comprehensive_threat_analysis pS pC pB pW w c e none).overall_risk ∧
      (comprehensive_threat_analysis pS pC pB pW w c e (some h)).recommendations =
        (comprehensive_threat_analysis pS pC pB pW w c e none).recommendations ∧
      (comprehensive_threat_analysis pS pC pB pW w c e (some h)).threats =
        (comprehensive_threat_analysis pS pC pB pW w c e none).threats ++
          [("weather_forecast", (pW h).toPredictionResult)] := by
  intro α pS pC pB pW w c e h
  have hscore : extract_score (pW h).toPredictionResult = none := by
    cases herr : (pW h).error <;>
      simp [WeatherForecastResult.toPredictionResult, extract_score, herr]
  have hrecs : recs_for ("weather_forecast", (pW h).toPredictionResult) = [] := by
    cases herr : (pW h).error <;>
      simp [WeatherForecastResult.toPredictionResult, recs_for, herr]
  refine ⟨?_, ?_, ?_⟩
  · simp only [comprehensive_threat_analysis, calculate_overall_risk,
      List.filterMap_append, List.filterMap_cons, List.filterMap_nil, hscore,
      List.append_nil]
  · simp only [comprehensive_threat_analysis, generate_recommendations]
    rw [foldl_append_eq_flatMap, foldl_append_eq_flatMap]
    simp only [List.nil_append, List.flatMap_append, List.flatMap_cons,
      List.flatMap_nil, hrecs, List.append_nil]
  · simp only [comprehensive_threat_analysis]
    simp [List.append_assoc]

/-- Claim C8: the two generator variants disagree exactly on the empty
case — when no rule fires the full variant returns [] while the simplified
variant returns the single fallback string, and whenever some rule fires
neither variant emits the fallback string. -/
theorem generator_variants_disagree_exactly_on_empty :
    ∀ threats : List (String × PredictionResult),
      (generate_recommendations threats = [] ↔
        generate_recommendations_simple threats = ["Continue routine monitoring"]) ∧
      "Continue routine monitoring" ∉ generate_recommendations threats ∧
      (generate_recommendations threats ≠ [] →
        "Continue routine monitoring" ∉ generate_recommendations_simple threats) := by
  intro threats
  have hmain : generate_recommendations threats = threats.flatMap recs_for := by
    simp only [generate_recommendations]
    rw [foldl_append_eq_flatMap]
    simp
  have hsimple : generate_recommendations_simple threats =
      if (threats.flatMap recs_for_simple).isEmpty then ["Continue routine monitoring"]
      else threats.flatMap recs_for_simple := by
    simp only [generate_recommendations_simple]
    rw [foldl_append_eq_flatMap]
    simp
  have hper : ∀ p : String × PredictionResult, recs_for p = [] ↔ recs_for_simple p = [] := by
    intro p
    simp only [recs_for, recs_for_simple]
    split_ifs <;> simp
  have hnotin : ∀ p : String × PredictionResult,
      "Continue routine monitoring" ∉ recs_for p := by
    intro p
    simp only [recs_for]
    split_ifs <;> simp
  have hnotin' : ∀ p : String × PredictionResult,
      "Continue routine monitoring" ∉ recs_for_simple p := by
    intro p
    simp only [recs_for_simple]
    split_ifs <;> simp
  have hiff : threats.flatMap recs_for = [] ↔ threats.flatMap recs_for_simple = [] := by
    rw [List.flatMap_eq_nil_iff, List.flatMap_eq_nil_iff]
    exact ⟨fun hh p hp => (hper p).mp (hh p hp), fun hh p hp => (hper p).mpr (hh p hp)⟩
  have hnm : "Continue routine monitoring" ∉ threats.flatMap recs_for := by
    intro hmem
    rcases List.mem_flatMap.mp hmem with ⟨p, _, hm⟩
    exact hnotin p hm
  have hnm' : "Continue routine monitoring" ∉ threats.flatMap recs_for_simple := by
    intro hmem
    rcases List.mem_flatMap.mp hmem with ⟨p, _, hm⟩
    exact hnotin' p hm
  refine ⟨?_, ?_, ?_⟩
  · rw [hmain, hsimple]
    constructor
    · intro hh
      have : threats.flatMap recs_for_simple = [] := hiff.mp hh
      simp [this]
    · intro hh
      by_cases hempty : (threats.flatMap recs_for_simple).isEmpty
      · exact hiff.mpr (List.isEmpty_iff.mp hempty)
      · rw [if_neg hempty] at hh
        exact absurd (hh ▸ List.mem_singleton_self "Continue routine monitoring") hnm'
  · rw [hmain]; exact hnm
  · intro hne
    rw [hsimple]
    rw [hmain] at hne
    have : ¬(threats.flatMap recs_for_simple).isEmpty := by
      intro hempty
      exact hne (hiff.mpr (List.isEmpty_iff.mp hempty))
    rw [if_neg this]
    exact hnm'

/-- Witness for C8 at a mapping where the surge rule fires: the simplified
variant emits no fallback string. -/
theorem generator_variants_disagree_witness :
    "Continue routine monitoring" ∉
      generate_recommendations_simple [("storm_surge", { surge_height := some 2 })] := by
  refine (generator_variants_disagree_exactly_on_empty
    [("storm_surge", { surge_height := some 2 })]).2.2 ?_
  simp [generate_recommendations, recs_for, show (1 : ℚ) < 2 from by norm_num]

/-- Helper for C10: replacing the rank contributed by one entry with a
larger rank never decreases the classified overall label. -/
theorem overall_rank_le_of_score_le (pre post : List (String × PredictionResult))
    (name : String) (td₁ td₂ : PredictionResult) (s₁ s₂ : ℕ)
    (h₁ : extract_score td₁ = some s₁) (h₂ : extract_score td₂ = some s₂) (hs : s₁ ≤ s₂) :
    overall_label_rank (calculate_overall_risk (pre ++ (name, td₁) :: post)) ≤
      overall_label_rank (calculate_overall_risk (pre ++ (name, td₂) :: post)) := by
  have hrank : ∀ a : ℚ, overall_label_rank (classify_average a) =
      if a < 3/2 then 1 else if a < 5/2 then 2 else if a < 7/2 then 3 else 4 := by
    intro a
    unfold classify_average
    split_ifs <;> simp [overall_label_rank]
  have hmono : ∀ a b : ℚ, a ≤ b →
      overall_label_rank (classify_average a) ≤ overall_label_rank (classify_average b) := by
    intro a b hab
    rw [hrank, hrank]
    split_ifs <;> first | (exfalso; linarith) | norm_num
  simp only [calculate_overall_risk, List.filterMap_append, List.filterMap_cons, h₁, h₂]
  set A := pre.filterMap (fun p => extract_score p.2) with hA
  set B := post.filterMap (fun p => extract_score p.2) with hB
  rw [if_neg (show ¬((A ++ s₁ :: B).isEmpty = true) by simp),
    if_neg (show ¬((A ++ s₂ :: B).isEmpty = true) by simp)]
  apply hmono
  have hlen : ((A ++ s₁ :: B).length : ℚ) = ((A ++ s₂ :: B).length : ℚ) := by simp
  rw [hlen]
  have hsum : (((A ++ s₁ :: B).map fun s : ℕ => (s : ℚ)).sum ≤
      ((A ++ s₂ :: B).map fun s : ℕ => (s : ℚ)).sum) := by
    simp only [List.map_append, List.map_cons, List.sum_append, List.sum_cons]
    have : (s₁ : ℚ) ≤ (s₂ : ℚ) := Nat.cast_le.mpr hs
    linarith
  have hden : (0 : ℚ) < ((A ++ s₂ :: B).length : ℚ) := by
    have h0 : 0 < (A ++ s₂ :: B).length := by simp
    exact_mod_cast h0
  gcongr

/-- Claim C10: the overall-risk aggregator is monotone in each entry rank —
replacing one error-free entry label (whether carried by `risk_level` or
by `threat_level`) by a recognized label of strictly higher rank never
decreases the returned label in the order low < medium < high <
critical. -/
theorem overall_risk_monotone :
    ∀ (pre post : List (String × PredictionResult)) (name : String)
      (sh cf : Option ℚ) (tl : Option String) (l₁ l₂ : String),
      recognized_label l₁ = true → recognized_label l₂ = true →
      risk_scores l₁ < risk_scores l₂ →
      (overall_label_rank (calculate_overall_risk (pre ++
          (name, { error := none, surge_height := sh, confidence := cf,
                   risk_level := some l₁, threat_level := tl }) :: post)) ≤
        overall_label_rank (calculate_overall_risk (pre ++
          (name, { error := none, surge_height := sh, confidence := cf,
                   risk_level := some l₂, threat_level := tl }) :: post))) ∧
      (overall_label_rank (calculate_overall_risk (pre ++
          (name, { error := none, surge_height := sh, confidence := cf,
                   risk_level := none, threat_level := some l₁ }) :: post)) ≤
        overall_label_rank (calculate_overall_risk (pre ++
          (name, { error := none, surge_height := sh, confidence := cf,
                   risk_level := none, threat_level := some l₂ }) :: post))) := by
  intro pre post name sh cf tl l₁ l₂ _ _ hlt
  constructor
  · exact overall_rank_le_of_score_le pre post name _ _ _ _
      (by simp [extract_score]) (by simp [extract_score]) (le_of_lt hlt)
  · exact overall_rank_le_of_score_le pre post name _ _ _ _
      (by simp [extract_score]) (by simp [extract_score]) (le_of_lt hlt)

/-- Witness for C10 at a single-entry mapping with "low" replaced by
"high": the overall label goes from low to high, weakly increasing. -/
theorem overall_risk_monotone_witness :
    (overall_label_rank (calculate_overall_risk
        [("storm_surge",
          { error := none, surge_height := none, confidence := none,
            risk_level := some "low", threat_level := none })]) ≤
      overall_label_rank (calculate_overall_risk
        [("storm_surge",
          { error := none, surge_height := none, confidence := none,
            risk_level := some "high", threat_level := none })])) ∧
    (overall_label_rank (calculate_overall_risk
        [("storm_surge",
          { error := none, surge_height := none, confidence := none,
            risk_level := none, threat_level := some "low" })]) ≤
      overall_label_rank (calculate_overall_risk
        [("storm_surge",
          { error := none, surge_height := none, confidence := none,
            risk_level := none, threat_level := some "high" })])) :=
  overall_risk_monotone [] [] "storm_surge" none none none "low" "high"
    (by decide) (by decide) (by decide)

end BlueGuard
